import Mathlib

/-!
# Verification of the Stackdriver-to-DevTools protocol adapter

A shallow embedding of `src/adapter.ts` from
GoogleCloudPlatform/cloud-debug-proxy-chrome-devtools, together with proofs
about the claims of its specification.

Modelling conventions, used throughout:

* JavaScript truthiness on optional string/number fields is modelled by
  `truthyS` / `truthyN` (`undefined`, the empty string and the number `0`
  are falsy; every object, including an empty array, is truthy, which is
  why `Option.isSome` models truthiness of array-valued fields).
* A thrown `Error` is modelled by `Except.error` carrying a fixed
  descriptive message; the `util.inspect` interpolation of the offending
  value into the message text is not reproduced (it never affects control flow).
* The remote-object identifier strings built by the adapter
  (`snapshotId-object-index`, `snapshotId-empty-index`,
  `snapshotId-scope-index`, ...) are modelled by the structured type
  `ObjectId`; this is faithful because those renderings are injective
  (the numeric suffix contains no dash, the role word does).
-/

set_option autoImplicit false

namespace CloudDebugAdapter

/-- JS truthiness of an optional string field: `undefined` and `""` are falsy. -/
def truthyS : Option String → Bool
  | none => false
  | some s => s ≠ ""

/-- JS truthiness of an optional numeric field: `undefined` and `0` are falsy. -/
def truthyN : Option Nat → Bool
  | none => false
  | some n => n ≠ 0

/-- Embedding of JS `String.prototype.startsWith` (on code points). -/
def jsStartsWith (s pre : String) : Bool :=
  pre.data.isPrefixOf s.data

/-- Embedding of JS `String.prototype.endsWith` (on code points). -/
def jsEndsWith (s suf : String) : Bool :=
  suf.data.isSuffixOf s.data

/-- Embedding of JS `String.prototype.toLowerCase` (per-code-point). -/
def jsToLower (s : String) : String :=
  (s.data.map Char.toLower).asString

/-- Embedding of `value.substr(2, value.length - 3)`: drops the `#<` wrapper
and the closing `>`. -/
def stripWrapper (s : String) : String :=
  ((s.data.drop 2).dropLast).asString

/-- A JS `Map` is modelled by an association list keeping first-insertion
order, with `mapSet` overwriting in place, exactly like `Map.prototype.set`. -/
def mapSet {κ α : Type} [DecidableEq κ] : List (κ × α) → κ → α → List (κ × α)
  | [], k, v => [(k, v)]
  | (k', v') :: rest, k, v =>
      if k' = k then (k, v) :: rest else (k', v') :: mapSet rest k v

/-- Embedding of `Map.prototype.get` (returns `undefined` on a missing key). -/
def mapGet {κ α : Type} [DecidableEq κ] : List (κ × α) → κ → Option α
  | [], _ => none
  | (k', v') :: rest, k => if k' = k then some v' else mapGet rest k

theorem mapGet_mapSet_self {κ α : Type} [DecidableEq κ]
    (m : List (κ × α)) (k : κ) (v : α) : mapGet (mapSet m k v) k = some v := by
  induction m with
  | nil => simp [mapSet, mapGet]
  | cons hd tl ih =>
      rcases hd with ⟨k', v'⟩
      by_cases h : k' = k <;> simp [mapSet, mapGet, h, ih]

theorem mapGet_mapSet_ne {κ α : Type} [DecidableEq κ]
    (m : List (κ × α)) (k k' : κ) (v : α) (h : k' ≠ k) :
    mapGet (mapSet m k v) k' = mapGet m k' := by
  induction m with
  | nil => simp [mapSet, mapGet, Ne.symm h]
  | cons hd tl ih =>
      rcases hd with ⟨k₀, v₀⟩
      by_cases h0 : k₀ = k
      · subst h0
        have hk : ¬k₀ = k' := fun hh => h hh.symm
        simp [mapSet, mapGet, hk]
      · simp [mapSet, mapGet, h0, ih]

/-! ## Data model of the captured snapshot (`@google-cloud/debug-proxy-common`) -/

/-- `variable.status.description` of a Stackdriver variable. -/
structure StatusDescription where
  format : Option String := none
deriving Repr, DecidableEq

/-- `variable.status` of a Stackdriver variable. -/
structure VariableStatus where
  isError : Option Bool := none
  refersTo : Option String := none
  description : Option StatusDescription := none
deriving Repr, DecidableEq

/-- A Stackdriver variable: one row of the flat variable table, or a named
local/member.  `members` makes the type recursive, hence the inductive. -/
inductive Variable : Type where
  | mk :
      (name : Option String) →
      (value : Option String) →
      (varTableIndex : Option Nat) →
      (type : Option String) →
      (members : Option (List Variable)) →
      (status : Option VariableStatus) →
      Variable

def Variable.name : Variable → Option String
  | .mk n _ _ _ _ _ => n

def Variable.value : Variable → Option String
  | .mk _ v _ _ _ _ => v

def Variable.varTableIndex : Variable → Option Nat
  | .mk _ _ i _ _ _ => i

def Variable.type : Variable → Option String
  | .mk _ _ _ t _ _ => t

def Variable.members : Variable → Option (List Variable)
  | .mk _ _ _ _ m _ => m

def Variable.status : Variable → Option VariableStatus
  | .mk _ _ _ _ _ s => s

/-- `stackFrame.location` / `breakpoint.location`: a path and a one-indexed
line number (an `Int`, as JS numbers are signed). -/
structure SourceLocation where
  path : String
  line : Int
deriving Repr, DecidableEq

/-- A Stackdriver stack frame. -/
structure StackFrame where
  function : String
  location : SourceLocation
  locals : Option (List Variable) := none
  arguments : Option (List Variable) := none

/-- A captured snapshot (a breakpoint in its final state). -/
structure CapturedSnapshot where
  id : String
  isFinalState : Bool
  stackFrames : Option (List StackFrame) := none
  variableTable : Option (List Variable) := none

/-! ## CDP-side data model -/

/-- Structured form of the remote-object identifier strings the adapter
builds (see the module comment): `object s i` renders as `s-object-i`,
`empty s i` as `s-empty-i`, `scope s i` as `s-scope-i`. -/
inductive ObjectId : Type where
  | object (snapshotId : String) (index : Nat)
  | empty (snapshotId : String) (index : Nat)
  | scope (snapshotId : String) (frameIndex : Nat)
deriving Repr, DecidableEq

/-- The payload of a CDP `RemoteObject.value`; an IEEE-754 number is kept as
the source text it was parsed from (`num s` stands for JS `Number(s)`). -/
inductive JsValue : Type where
  | null
  | bool (b : Bool)
  | num (source : String)
  | str (s : String)
deriving Repr, DecidableEq

/-- A CDP `Runtime.RemoteObject`. -/
structure RemoteObject where
  type : String
  subtype : Option String := none
  className : Option String := none
  description : Option String := none
  objectId : Option ObjectId := none
  value : Option JsValue := none
  unserializableValue : Option String := none
deriving Repr, DecidableEq

/-- A CDP `Runtime.PropertyDescriptor` as built by the adapter. -/
structure PropertyDescriptor where
  name : String
  value : Option RemoteObject := none
  configurable : Bool
  enumerable : Bool
deriving Repr, DecidableEq

/-- The adapter's `propertyDescriptorListMap` store. -/
abbrev PDLMap : Type := List (ObjectId × List PropertyDescriptor)

/-- The per-load `varTableIndexToRemoteObjectMap`. -/
abbrev VarMap : Type := List (Nat × RemoteObject)

/-! ## Status/diagnostic classifier (`logVariableStatus`) -/

/-- `STATUS_MESSAGE_SET`: allow-list of known noisy field names. -/
def STATUS_MESSAGE_SET : List String :=
  ["baseUrl", "_pendingEncoding", "search", "_trailer", "_url"]

/-- Severity of a log line emitted by the classifier (the code only ever
uses `silly` and `info` here). -/
inductive LogSeverity : Type where
  | silly
  | info
deriving Repr, DecidableEq

/-- The guard of `logVariableStatus`'s first branch: the variable's status
object matches the expected error-in-variable shape. -/
def statusMatchesErrorShape (v : Variable) : Bool :=
  match v.status with
  | none => false
  | some st =>
      !truthyN v.varTableIndex && st.isError == some true &&
      st.refersTo == some "VARIABLE_VALUE" &&
      (match st.description with
       | some d => truthyS d.format
       | none => false)

/-- Embedding of `Adapter.logVariableStatus`.  Returns the severity of the
log line written, or the thrown error. -/
def logVariableStatus (v : Variable) : Except String LogSeverity :=
  match v.status with
  | some _ =>
      if statusMatchesErrorShape v then
        Except.ok LogSeverity.silly
      else
        Except.error "variable from Stackdriver Debug has an unexpected format"
  | none =>
      if truthyS v.name && STATUS_MESSAGE_SET.contains (v.name.getD "") then
        Except.ok LogSeverity.silly
      else
        Except.ok LogSeverity.info

/-! ## Value parser (`parseVariableValue`) -/

/-- JS whitespace accepted by `Number(...)` trimming (the common code
points; exotic Unicode space separators behave identically and are
omitted). -/
def jsWhitespaceChar (c : Char) : Bool :=
  c == ' ' || c == '\t' || c == '\n' || c == '\r' ||
  c == '\u000B' || c == '\u000C' || c == ' ' || c == '﻿'

/-- `StrUnsignedDecimalLiteral` of the ECMAScript string-to-number grammar:
`Infinity`, or a decimal mantissa with an optional exponent. -/
def isUnsignedDecimalLiteral (cs : List Char) : Bool :=
  if cs = "Infinity".data then true
  else
    let intPart := cs.takeWhile Char.isDigit
    let r1 := cs.dropWhile Char.isDigit
    let (fracPart, r2) :=
      match r1 with
      | '.' :: rest => (rest.takeWhile Char.isDigit, rest.dropWhile Char.isDigit)
      | _ => ([], r1)
    let (expOk, r3) :=
      match r2 with
      | 'e' :: rest =>
          let rest' := match rest with
            | '+' :: t => t
            | '-' :: t => t
            | t => t
          (!(rest'.takeWhile Char.isDigit).isEmpty,
           rest'.dropWhile Char.isDigit)
      | 'E' :: rest =>
          let rest' := match rest with
            | '+' :: t => t
            | '-' :: t => t
            | t => t
          (!(rest'.takeWhile Char.isDigit).isEmpty,
           rest'.dropWhile Char.isDigit)
      | _ => (true, r2)
    !(intPart ++ fracPart).isEmpty && expOk && r3.isEmpty

/-- `NonDecimalIntegerLiteral`: `0x`/`0o`/`0b` forms (unsigned only). -/
def isNonDecimalIntegerLiteral (cs : List Char) : Bool :=
  match cs with
  | '0' :: b :: rest =>
      if b = 'x' ∨ b = 'X' then
        !rest.isEmpty && rest.all (fun c => decide (c.isDigit ∨ ('a' ≤ c ∧ c ≤ 'f') ∨ ('A' ≤ c ∧ c ≤ 'F')))
      else if b = 'o' ∨ b = 'O' then
        !rest.isEmpty && rest.all (fun c => decide ('0' ≤ c ∧ c ≤ '7'))
      else if b = 'b' ∨ b = 'B' then
        !rest.isEmpty && rest.all (fun c => decide (c = '0' ∨ c = '1'))
      else false
  | _ => false

/-- Model of the JS expression `Number.isNaN(Number(s))`: `true` exactly when
the trimmed string is not a `StrNumericLiteral` (the empty string converts
to `0` and is therefore numeric). -/
def jsNumberIsNaN (s : String) : Bool :=
  let t := (s.data.dropWhile jsWhitespaceChar).reverse.dropWhile jsWhitespaceChar |>.reverse
  let numeric :=
    if t = ([] : List Char) then true
    else if isNonDecimalIntegerLiteral t then true
    else
      match t with
      | '+' :: r => isUnsignedDecimalLiteral r
      | '-' :: r => isUnsignedDecimalLiteral r
      | r => isUnsignedDecimalLiteral r
  !numeric

/-- Embedding of `Adapter.parseVariableValue`. -/
def parseVariableValue (value : String) : RemoteObject :=
  if value = "undefined" then { type := "undefined" }
  else if value = "null" then
    { type := "object", subtype := some "null", value := some JsValue.null }
  else if value = "true" then { type := "boolean", value := some (JsValue.bool true) }
  else if value = "false" then { type := "boolean", value := some (JsValue.bool false) }
  else if value = "NaN" ∨ value = "Infinity" ∨ value = "-Infinity" then
    { type := "number", description := some value, unserializableValue := some value }
  else if jsStartsWith value "Symbol(" && jsEndsWith value ")" then
    { type := "symbol", description := some value }
  else if jsStartsWith value "function " && jsEndsWith value "()" then
    -- DevTools wants the whole function body, hence the synthesized braces.
    { type := "function", className := some "Function",
      description := some (value ++ "\x7b\x7d") }
  else if jsStartsWith value "/" && jsEndsWith value "/" then
    { type := "object", subtype := some "regexp", className := some "RegExp",
      description := some value }
  else if !jsNumberIsNaN value then
    { type := "number", description := some value, value := some (JsValue.num value) }
  else
    { type := "string", value := some (JsValue.str value) }

/-! ## Line-number translation -/

/-- Embedding of `Adapter.devToolsToStackdriverLine`. -/
def devToolsToStackdriverLine (line : Int) : Int := line + 1

/-- Embedding of `Adapter.stackdriverToDevToolsLine`: rejects line numbers
below one. -/
def stackdriverToDevToolsLine (line : Int) : Except String Int :=
  if line < 1 then
    Except.error "Given Stackdriver line number is not possible."
  else
    Except.ok (line - 1)

/-! ## The `parseVariable` closure (children and locals) -/

/-- Embedding of the `parseVariable` closure inside `loadSnapshot`; `vm` is
the fully built `varTableIndexToRemoteObjectMap`.  `Except.ok none` models
the `null` return for a status-only entry (filtered out by the caller). -/
def parseVariable (vm : VarMap) (v : Variable) :
    Except String (Option PropertyDescriptor) :=
  if truthyS v.type || v.members.isSome then
    Except.error "variable should not have the type nor members properties"
  else if truthyS v.value && truthyN v.varTableIndex then
    Except.error
      "variable should not have the value property, because it already specifies the varTableIndex property"
  else if truthyS v.value || truthyN v.varTableIndex then
    if !truthyS v.name then
      Except.error "variable should have the name property"
    else
      Except.ok (some
        { name := v.name.getD "",
          configurable := false,
          enumerable := true,
          value :=
            if truthyS v.value then some (parseVariableValue (v.value.getD ""))
            else mapGet vm (v.varTableIndex.getD 0) })
  else
    match logVariableStatus v with
    | Except.error e => Except.error e
    | Except.ok _ => Except.ok none

/-- Embedding of `parseVariableList`:
`list.map(parseVariable).filter(nonNull)`, with the first thrown error
aborting the whole traversal. -/
def parseVariableList (vm : VarMap) : List Variable → Except String (List PropertyDescriptor)
  | [] => Except.ok []
  | v :: rest =>
      match parseVariable vm v with
      | Except.error e => Except.error e
      | Except.ok d =>
          match parseVariableList vm rest with
          | Except.error e => Except.error e
          | Except.ok ds =>
              Except.ok (match d with
                | some pd => pd :: ds
                | none => ds)

/-! ## Pass 1 of the variable-table resolver -/

/-- `REMOTE_OBJECT_SUBTYPE_SET` from the source. -/
def REMOTE_OBJECT_SUBTYPE_SET : List String :=
  ["array", "null", "node", "regexp", "date", "map", "set", "weakmap",
   "weakset", "iterator", "generator", "error", "proxy", "promise",
   "typedarray"]

/-- `TYPED_ARRAY_SET` from the source. -/
def TYPED_ARRAY_SET : List String :=
  ["Int8Array", "Uint8Array", "Uint8ClampedArray", "Int16Array",
   "Uint16Array", "Int32Array", "Uint32Array", "Float32Array",
   "Float64Array"]

/-- Pass 1's array loop: the description from the first member named
`length` (JS template interpolation renders a missing value as
`undefined`); `none` when there are no members or no such member. -/
def arrayLengthDescription (members : Option (List Variable)) : Option String :=
  match members with
  | none => none
  | some ms =>
      match ms.find? (fun mv => mv.name == some "length") with
      | some mv =>
          some ("Array(" ++ (match mv.value with
            | some s => s
            | none => "undefined") ++ ")")
      | none => none

/-- Pass 1's error loop: the stack text from the first member named `stack`
carrying a truthy value. -/
def errorStackDescription (ms : List Variable) : Option String :=
  match ms.find? (fun mv => mv.name == some "stack" && truthyS mv.value) with
  | some mv => mv.value
  | none => none

def isLeapYear (y : Nat) : Bool :=
  (y % 4 == 0 && y % 100 != 0) || y % 400 == 0

def daysInMonth (y m : Nat) : Nat :=
  if m == 2 then (if isLeapYear y then 29 else 28)
  else if m == 4 || m == 6 || m == 9 || m == 11 then 30
  else 31

def digitVal (c : Char) : Nat := c.toNat - 48

/-- Model of the strict ISO-8601 round trip
`value === new Date(Date.parse(value)).toISOString()`: it holds exactly when
the string is the canonical 24-character form `YYYY-MM-DDTHH:MM:SS.mmmZ`
denoting a valid calendar date (`toISOString` emits exactly this form for
four-digit years; the rare expanded-year forms are not modelled). -/
def isCanonicalIsoDate (s : String) : Bool :=
  match s.data with
  | [y1, y2, y3, y4, sep1, mo1, mo2, sep2, da1, da2, tsep,
     ho1, ho2, c1, mi1, mi2, c2, se1, se2, dot, f1, f2, f3, zend] =>
      [y1, y2, y3, y4, mo1, mo2, da1, da2, ho1, ho2, mi1, mi2,
       se1, se2, f1, f2, f3].all Char.isDigit &&
      sep1 == '-' && sep2 == '-' && tsep == 'T' && c1 == ':' && c2 == ':' &&
      dot == '.' && zend == 'Z' &&
      (let year := 1000 * digitVal y1 + 100 * digitVal y2 + 10 * digitVal y3 + digitVal y4
       let month := 10 * digitVal mo1 + digitVal mo2
       let day := 10 * digitVal da1 + digitVal da2
       let hour := 10 * digitVal ho1 + digitVal ho2
       let minute := 10 * digitVal mi1 + digitVal mi2
       let second := 10 * digitVal se1 + digitVal se2
       decide (1 ≤ month ∧ month ≤ 12 ∧ 1 ≤ day ∧ day ≤ daysInMonth year month ∧
               hour ≤ 23 ∧ minute ≤ 59 ∧ second ≤ 59))
  | _ => false

/-- The `new Date(ms).toString()` rendering used as a date description is
host- and timezone-dependent; the model keeps the canonical ISO source
text as the description (no claim depends on this rendering). -/
def jsDateToString (value : String) : String := value

/-- Pass 1 classification of a variable-table entry's truthy raw value:
`(className, subtype, description)`, or the thrown data-shape error. -/
def classifyTableValue (value : String) (members : Option (List Variable)) :
    Except String (String × Option String × String) :=
  if jsStartsWith value "#<" && jsEndsWith value ">" then
    let className := stripWrapper value
    if REMOTE_OBJECT_SUBTYPE_SET.contains (jsToLower className) then
      if jsToLower className = "array" then
        match arrayLengthDescription members with
        | some d => Except.ok (className, some (jsToLower className), d)
        | none => Except.error "array variable does not have the length property"
      else
        Except.ok (className, some (jsToLower className), className)
    else
      Except.ok (className,
        if TYPED_ARRAY_SET.contains className then some "typedarray" else none,
        className)
  else if jsStartsWith value "Error" then
    match members with
    | some ms =>
        Except.ok ("Error", some "error", (errorStackDescription ms).getD "Error")
    | none => Except.error "error variable does not have the stack property"
  else if isCanonicalIsoDate value then
    Except.ok ("Date", some "date", jsDateToString value)
  else
    Except.error "variable has an unexpected value"

/-- The remote object Pass 1 registers at `index` in
`varTableIndexToRemoteObjectMap` for an entry with a truthy raw value. -/
def pass1Descriptor (snapshotId : String) (index : Nat) (v : Variable) :
    Except String RemoteObject :=
  match classifyTableValue (v.value.getD "") v.members with
  | Except.error e => Except.error e
  | Except.ok (className, subtype, description) =>
      Except.ok
        { type := "object",
          className := some className,
          subtype := subtype,
          description := some description,
          objectId :=
            if v.members.isSome then some (ObjectId.object snapshotId index)
            else if className = "Object" then some (ObjectId.empty snapshotId index)
            else none }

/-- One Pass 1 step over a variable-table entry. -/
def pass1Entry (snapshotId : String) (index : Nat) (v : Variable)
    (vm : VarMap) (m : PDLMap) : Except String (VarMap × PDLMap) :=
  if truthyS v.name || truthyS v.type || truthyN v.varTableIndex then
    Except.error
      "variableTable entry should not have the name, type, nor varTableIndex properties"
  else if truthyS v.value then
    match pass1Descriptor snapshotId index v with
    | Except.error e => Except.error e
    | Except.ok ro =>
        let m' :=
          if !v.members.isSome && ro.className = some "Object" then
            mapSet m (ObjectId.empty snapshotId index) []
          else m
        Except.ok (mapSet vm index ro, m')
  else
    match logVariableStatus v with
    | Except.error e => Except.error e
    | Except.ok _ => Except.ok (vm, m)

/-- Pass 1 (`snapshot.variableTable.forEach`, first traversal). -/
def pass1 (snapshotId : String) :
    List Variable → Nat → VarMap → PDLMap → Except String (VarMap × PDLMap)
  | [], _, vm, m => Except.ok (vm, m)
  | v :: rest, index, vm, m =>
      match pass1Entry snapshotId index v vm m with
      | Except.error e => Except.error e
      | Except.ok (vm', m') => pass1 snapshotId rest (index + 1) vm' m'

/-! ## Pass 2 of the variable-table resolver -/

/-- The property descriptor list Pass 2 computes for table entry `index`
with a truthy raw value: the parsed members, or the synthesized singleton
named after the raw value and pointing at the Pass-1 descriptor. -/
def pass2PDL (vm : VarMap) (index : Nat) (v : Variable) :
    Except String (List PropertyDescriptor) :=
  match v.members with
  | some ms => parseVariableList vm ms
  | none =>
      Except.ok [{ name := v.value.getD "",
                   value := mapGet vm index,
                   configurable := false,
                   enumerable := true }]

/-- One Pass 2 step over a variable-table entry. -/
def pass2Entry (snapshotId : String) (vm : VarMap) (index : Nat) (v : Variable)
    (m : PDLMap) : Except String PDLMap :=
  if truthyS v.type || truthyN v.varTableIndex then
    Except.error
      "variableTable entry should not itself have the type nor varTableIndex properties"
  else if truthyS v.value then
    match pass2PDL vm index v with
    | Except.error e => Except.error e
    | Except.ok pdl => Except.ok (mapSet m (ObjectId.object snapshotId index) pdl)
  else Except.ok m

/-- Pass 2 (`snapshot.variableTable.forEach`, second traversal). -/
def pass2 (snapshotId : String) (vm : VarMap) :
    List Variable → Nat → PDLMap → Except String PDLMap
  | [], _, m => Except.ok m
  | v :: rest, index, m =>
      match pass2Entry snapshotId vm index v m with
      | Except.error e => Except.error e
      | Except.ok m' => pass2 snapshotId vm rest (index + 1) m'

/-! ## Snapshot translation: call frames and the paused event -/

def undefinedRemoteObject : RemoteObject := { type := "undefined" }

/-- The context-extraction convention on a frame's locals: when the last
local is literally named `context` and carries a truthy back-reference, it
is popped and resolved against the Pass-1 map (possibly to nothing). -/
def popContext (vm : VarMap) (ls : List Variable) :
    List Variable × Option RemoteObject :=
  match ls.getLast? with
  | none => (ls, none)
  | some lv =>
      if lv.name == some "context" && truthyN lv.varTableIndex then
        (ls.dropLast, mapGet vm (lv.varTableIndex.getD 0))
      else (ls, none)

/-- Parses the post-extraction locals and pairs the list with the context. -/
def frameScopeCont (vm : VarMap) :
    List Variable × Option RemoteObject →
      Except String (List PropertyDescriptor × Option RemoteObject)
  | (ls', ctx) =>
      match parseVariableList vm ls' with
      | Except.error e => Except.error e
      | Except.ok pl => Except.ok (pl, ctx)

/-- The local-scope property list and extracted context of one stack frame
(`[]` without any parsing when the `locals` field is absent). -/
def frameScopeList (vm : VarMap) (f : StackFrame) :
    Except String (List PropertyDescriptor × Option RemoteObject) :=
  match f.locals with
  | none => Except.ok ([], none)
  | some ls => frameScopeCont vm (popContext vm ls)

structure ScopeEntry where
  type : String
  object : RemoteObject
deriving Repr, DecidableEq

structure CallFrameLocation where
  scriptId : String
  lineNumber : Int
deriving Repr, DecidableEq

/-- A CDP `Debugger.CallFrame` as built by the adapter. -/
structure CallFrame where
  callFrameId : String
  functionName : String
  location : CallFrameLocation
  scopeChain : List ScopeEntry
  thisObject : RemoteObject
deriving Repr, DecidableEq

/-- Model of Node `path.resolve(sourceDirectory, p)` for the POSIX paths
this adapter handles: an absolute `p` wins, otherwise it is joined under
the source directory (dot-segment normalization and the process working
directory are not modelled; no claim depends on them). -/
def pathResolve (dir p : String) : String :=
  if jsStartsWith p "/" then p else dir ++ "/" ++ p

/-- Second half of the per-frame translation, after the local-scope list
and context have been resolved: the arguments-shape check, the store write
under the scope identifier, and the call-frame record itself. -/
def buildFrameRest (snapshotId dir : String) (index : Nat) (f : StackFrame)
    (propertyList : List PropertyDescriptor)
    (contextRemoteObject : Option RemoteObject) (m : PDLMap) :
    Except String (CallFrame × PDLMap) :=
  if f.arguments.isSome then
    Except.error "stack frame from Stackdriver Debug has arguments"
  else
    let m' := mapSet m (ObjectId.scope snapshotId index) propertyList
    match stackdriverToDevToolsLine f.location.line with
    | Except.error e => Except.error e
    | Except.ok line =>
        Except.ok
          ({ callFrameId := snapshotId ++ "-frame-" ++ toString index,
             functionName := f.function,
             location := { scriptId := pathResolve dir f.location.path,
                           lineNumber := line },
             scopeChain := [{ type := "local",
                              object := { type := "object",
                                          objectId := some (ObjectId.scope snapshotId index) } }],
             thisObject := contextRemoteObject.getD undefinedRemoteObject },
           m')

/-- Translation of one stack frame into a CDP call frame, registering the
frame's local-scope property list under its scope identifier. -/
def buildFrame (snapshotId dir : String) (vm : VarMap) (index : Nat)
    (f : StackFrame) (m : PDLMap) : Except String (CallFrame × PDLMap) :=
  match frameScopeList vm f with
  | Except.error e => Except.error e
  | Except.ok (propertyList, contextRemoteObject) =>
      buildFrameRest snapshotId dir index f propertyList contextRemoteObject m

/-- Prepends one built call frame to the result of the remaining frames. -/
def consFrame (cf : CallFrame) :
    Except String (List CallFrame × PDLMap) →
      Except String (List CallFrame × PDLMap)
  | Except.error e => Except.error e
  | Except.ok (cfs, m'') => Except.ok (cf :: cfs, m'')

/-- `snapshot.stackFrames.map(...)`, with the store threaded through. -/
def processFrames (snapshotId dir : String) (vm : VarMap) :
    List StackFrame → Nat → PDLMap → Except String (List CallFrame × PDLMap)
  | [], _, m => Except.ok ([], m)
  | f :: rest, index, m =>
      match buildFrame snapshotId dir vm index f m with
      | Except.error e => Except.error e
      | Except.ok (cf, m') =>
          consFrame cf (processFrames snapshotId dir vm rest (index + 1) m')

/-- A CDP `Debugger.paused` event payload. -/
structure PausedEventData where
  reason : String
  hitBreakpoints : List String
  callFrames : List CallFrame
deriving Repr, DecidableEq

/-- Embedding of `Adapter.loadSnapshot`.  The external
`debugProxy.getBreakpoint` fetch is factored out: the model receives the
snapshot itself.  `m₀` is the adapter's property-descriptor store before
the load; the result pairs the paused event with the updated store (on a
thrown error the partially updated store is discarded, which no claim
observes). -/
def loadSnapshotFrames (dir snapshotId : String) (vm : VarMap)
    (frames : List StackFrame) (m2 : PDLMap) :
    Except String (PausedEventData × PDLMap) :=
  match processFrames snapshotId dir vm frames 0 m2 with
  | Except.error e => Except.error e
  | Except.ok (cfs, m3) =>
      Except.ok
        ({ reason := "other",
           hitBreakpoints := [snapshotId],
           callFrames := cfs }, m3)

def loadSnapshotAfterPass1 (dir snapshotId : String)
    (variableTable : List Variable) (frames : List StackFrame)
    (vm : VarMap) (m1 : PDLMap) : Except String (PausedEventData × PDLMap) :=
  match pass2 snapshotId vm variableTable 0 m1 with
  | Except.error e => Except.error e
  | Except.ok m2 => loadSnapshotFrames dir snapshotId vm frames m2

def loadSnapshot (dir : String) (m₀ : PDLMap) (snap : CapturedSnapshot) :
    Except String (PausedEventData × PDLMap) :=
  if !snap.isFinalState then
    Except.error "breakpoint from Stackdriver Debug is not a captured snapshot"
  else
    match pass1 snap.id (snap.variableTable.getD []) 0 [] m₀ with
    | Except.error e => Except.error e
    | Except.ok (vm, m1) =>
        loadSnapshotAfterPass1 dir snap.id (snap.variableTable.getD [])
          (snap.stackFrames.getD []) vm m1

/-! ## Protocol adapter / request router (`processRequest`) -/

/-- The breakpoint record returned by the external snapshot-service client
(only the fields `processRequest` reads). -/
structure Breakpoint where
  id : String
  location : SourceLocation
deriving Repr, DecidableEq

/-- The breakpoint-creation request the adapter sends to the external
client; `line` is `none` when the inbound request carried no `lineNumber`
(JS `undefined + 1` is `NaN`). -/
structure SetBreakpointRequest where
  action : String
  path : String
  line : Option Int
  condition : Option String
deriving Repr, DecidableEq

/-- The external `@google-cloud/debug-proxy-common` client, modelled at its
interface boundary as response oracles (the adapter treats it as an RPC
client; its own behavior is outside this repository). -/
structure DebugProxyModel where
  debuggerId : String
  setBreakpoint : SetBreakpointRequest → Breakpoint
  readFile : String → String

/-- The parameter bag of an inbound CDP request (each handler reads only
the fields it casts to; absent fields model `undefined`). -/
structure RequestParams where
  url : Option String := none
  urlRegex : Option String := none
  lineNumber : Option Int := none
  condition : Option String := none
  objectId : Option ObjectId := none
  breakpointId : Option String := none
  scriptId : Option String := none
deriving Repr, DecidableEq

/-- An inbound CDP request envelope. -/
structure MessageRequest where
  id : Nat
  method : String
  params : RequestParams := {}
deriving Repr, DecidableEq

/-- One CDP response location of `setBreakpointByUrl`. -/
structure BreakpointResponseLocation where
  scriptId : String
  lineNumber : Int
  columnNumber : Int
deriving Repr, DecidableEq

/-- The `ProcessedResponse` union. -/
inductive ProcessedResponse : Type where
  | empty
  | enable (debuggerId : String)
  | scriptSource (source : String)
  | setBreakpointByUrl (breakpointId : String)
      (locations : List BreakpointResponseLocation)
  | getProperties (result : List PropertyDescriptor)
deriving Repr, DecidableEq

/-- Embedding of `request.method.split('.', 2)` destructured into
`[domain, method]`: the segment before the first dot and the segment
between the first and second dots.  A missing second segment reads as JS
`undefined`, which never matches an enumerated method; it is modelled by
`""` (equally unmatchable, the empty string being no enumerated method). -/
def splitDomainMethod (s : String) : String × String :=
  let domain := (s.data.takeWhile (fun c => c != '.')).asString
  match s.data.dropWhile (fun c => c != '.') with
  | [] => (domain, "")
  | _ :: rest => (domain, (rest.takeWhile (fun c => c != '.')).asString)

/-- Embedding of `Adapter.processRequest`.  `m` is the adapter's
property-descriptor store; the external client is `px`.  The emitted
notifications (`resume`, `updateBreakpointList`) carry no response data and
are not modelled. -/
def processRequest (px : DebugProxyModel) (m : PDLMap) (req : MessageRequest) :
    Except String ProcessedResponse :=
  let domain := (splitDomainMethod req.method).1
  let meth := (splitDomainMethod req.method).2
  if domain = "Debugger" then
    match meth with
    | "enable" => Except.ok (ProcessedResponse.enable px.debuggerId)
    | "getScriptSource" =>
        -- parse-scripts.ts makes scriptId an absolute path to the file.
        (match req.params.scriptId with
         | some sid => Except.ok (ProcessedResponse.scriptSource (px.readFile sid))
         | none => Except.error "cannot read an undefined script path")
    | "removeBreakpoint" => Except.ok ProcessedResponse.empty
    | "resume" => Except.ok ProcessedResponse.empty
    | "setBreakpointByUrl" =>
        if !truthyS req.params.url then
          Except.error
            "the setBreakpointByUrl request from Chrome DevTools should specify the url property"
        else
          let breakpoint := px.setBreakpoint
            { action := "CAPTURE",
              path := req.params.url.getD "",
              line := req.params.lineNumber.map devToolsToStackdriverLine,
              condition := req.params.condition }
          match stackdriverToDevToolsLine breakpoint.location.line with
          | Except.error e => Except.error e
          | Except.ok ln =>
              Except.ok (ProcessedResponse.setBreakpointByUrl breakpoint.id
                [{ scriptId := breakpoint.location.path,
                   lineNumber := ln,
                   columnNumber := 0 }])
    | "continueToLocation" => Except.error "request is not supported"
    | "evaluateOnCallFrame" => Except.error "request is not supported"
    | "restartFrame" => Except.error "request is not supported"
    | "scheduleStepIntoAsync" => Except.error "request is not supported"
    | "setReturnValue" => Except.error "request is not supported"
    | "setScriptSource" => Except.error "request is not supported"
    | "setVariableValue" => Except.error "request is not supported"
    | "stepInto" => Except.error "request is not supported"
    | "stepOut" => Except.error "request is not supported"
    | "stepOver" => Except.error "request is not supported"
    | "disable" => Except.ok ProcessedResponse.empty
    | "pause" => Except.ok ProcessedResponse.empty
    | "pauseOnAsyncCall" => Except.ok ProcessedResponse.empty
    | "setAsyncCallStackDepth" => Except.ok ProcessedResponse.empty
    | "setBlackboxedRanges" => Except.ok ProcessedResponse.empty
    | "setBlackboxPatterns" => Except.ok ProcessedResponse.empty
    | "setBreakpointsActive" => Except.ok ProcessedResponse.empty
    | "setPauseOnExceptions" => Except.ok ProcessedResponse.empty
    | "setSkipAllPauses" => Except.ok ProcessedResponse.empty
    | "getPossibleBreakpoints" => Except.ok ProcessedResponse.empty
    | "getStackTrace" => Except.ok ProcessedResponse.empty
    | "searchInContent" => Except.ok ProcessedResponse.empty
    | "setBreakpoint" => Except.ok ProcessedResponse.empty
    | "setBreakpointOnFunctionCall" => Except.ok ProcessedResponse.empty
    | _ => Except.error "unrecognized debugger method"
  else if domain = "Runtime" then
    match meth with
    | "getProperties" =>
        (match req.params.objectId with
         | none =>
             Except.error
               "the remote object does not exist in the internal object property map"
         | some oid =>
             match mapGet m oid with
             | none =>
                 Except.error
                   "the remote object with this ID does not exist in the internal object property map"
             | some propertyDescriptorList =>
                 Except.ok (ProcessedResponse.getProperties propertyDescriptorList))
    | "addBinding" => Except.error "request is not supported"
    | "awaitPromise" => Except.error "request is not supported"
    | "callFunctionOn" => Except.error "request is not supported"
    | "compileScript" => Except.error "request is not supported"
    | "evaluate" => Except.error "request is not supported"
    | "getIsolateId" => Except.error "request is not supported"
    | "getHeapUsage" => Except.error "request is not supported"
    | "globalLexicalScopeNames" => Except.error "request is not supported"
    | "queryObjects" => Except.error "request is not supported"
    | "removeBinding" => Except.error "request is not supported"
    | "runScript" => Except.error "request is not supported"
    | "terminateExecution" => Except.error "request is not supported"
    | "disable" => Except.ok ProcessedResponse.empty
    | "discardConsoleEntries" => Except.ok ProcessedResponse.empty
    | "enable" => Except.ok ProcessedResponse.empty
    | "releaseObject" => Except.ok ProcessedResponse.empty
    | "releaseObjectGroup" => Except.ok ProcessedResponse.empty
    | "runIfWaitingForDebugger" => Except.ok ProcessedResponse.empty
    | "setAsyncCallStackDepth" => Except.ok ProcessedResponse.empty
    | "setCustomObjectFormatterEnabled" => Except.ok ProcessedResponse.empty
    | "setMaxCallStackSizeToCapture" => Except.ok ProcessedResponse.empty
    | _ => Except.error "unrecognized runtime method"
  else
    Except.ok ProcessedResponse.empty

/-- The enumerated methods that fail for every request (full
`Domain.Method` strings, mirroring the two throwing case groups). -/
def unsupportedRequestMethods : List String :=
  ["Debugger.continueToLocation", "Debugger.evaluateOnCallFrame",
   "Debugger.restartFrame", "Debugger.scheduleStepIntoAsync",
   "Debugger.setReturnValue", "Debugger.setScriptSource",
   "Debugger.setVariableValue", "Debugger.stepInto", "Debugger.stepOut",
   "Debugger.stepOver",
   "Runtime.addBinding", "Runtime.awaitPromise", "Runtime.callFunctionOn",
   "Runtime.compileScript", "Runtime.evaluate", "Runtime.getIsolateId",
   "Runtime.getHeapUsage", "Runtime.globalLexicalScopeNames",
   "Runtime.queryObjects", "Runtime.removeBinding", "Runtime.runScript",
   "Runtime.terminateExecution"]

/-- The enumerated methods that return the empty result for every request
(the explicit no-op groups and the acknowledged-gap group). -/
def noopRequestMethods : List String :=
  ["Debugger.disable", "Debugger.pause", "Debugger.pauseOnAsyncCall",
   "Debugger.setAsyncCallStackDepth", "Debugger.setBlackboxedRanges",
   "Debugger.setBlackboxPatterns", "Debugger.setBreakpointsActive",
   "Debugger.setPauseOnExceptions", "Debugger.setSkipAllPauses",
   "Debugger.getPossibleBreakpoints", "Debugger.getStackTrace",
   "Debugger.searchInContent", "Debugger.setBreakpoint",
   "Debugger.setBreakpointOnFunctionCall",
   "Runtime.disable", "Runtime.discardConsoleEntries", "Runtime.enable",
   "Runtime.releaseObject", "Runtime.releaseObjectGroup",
   "Runtime.runIfWaitingForDebugger", "Runtime.setAsyncCallStackDepth",
   "Runtime.setCustomObjectFormatterEnabled",
   "Runtime.setMaxCallStackSizeToCapture"]

/-! ## General helper lemmas -/

theorem truthyS_of_jsStartsWith (o : Option String) (p : String)
    (hp : p ≠ "") (h : jsStartsWith (o.getD "") p = true) : truthyS o = true := by
  cases o with
  | none =>
      exfalso
      unfold jsStartsWith at h
      cases hq : p.data with
      | nil => exact hp (String.ext hq)
      | cons c cs => rw [hq] at h; simp [List.isPrefixOf] at h
  | some s =>
      by_cases hs : s = ""
      · subst hs
        exfalso
        unfold jsStartsWith at h
        cases hq : p.data with
        | nil => exact hp (String.ext hq)
        | cons c cs => rw [hq] at h; simp [List.isPrefixOf] at h
      · simp [truthyS, hs]

/-- A value starting with `Error` cannot also start with `#<`. -/
theorem not_hash_of_error_start (s : String)
    (h : jsStartsWith s "Error" = true) : jsStartsWith s "#<" = false := by
  unfold jsStartsWith at h ⊢
  cases hd : s.data with
  | nil =>
      rw [hd] at h
      exact absurd h (by decide)
  | cons c rest =>
      rw [hd] at h
      have hE : List.isPrefixOf ('E' :: ['r', 'r', 'o', 'r']) (c :: rest) = true := h
      simp only [List.isPrefixOf, Bool.and_eq_true, beq_iff_eq] at hE
      obtain ⟨hc, _⟩ := hE
      subst hc
      simp [List.isPrefixOf]

/-! ## C8: line-number translation -/

/-- C8: for every line number `n ≥ 1` the two translators invert each other
(in both directions), and the one-indexed-to-zero-indexed translation fails
for every input below `1`. -/
theorem line_translation_inverses (n : Int) :
    (1 ≤ n →
      stackdriverToDevToolsLine (devToolsToStackdriverLine n) = Except.ok n ∧
      stackdriverToDevToolsLine n = Except.ok (n - 1) ∧
      devToolsToStackdriverLine (n - 1) = n) ∧
    (n < 1 → ∃ e, stackdriverToDevToolsLine n = Except.error e) := by
  constructor
  · intro h
    refine ⟨?_, ?_, ?_⟩
    · unfold devToolsToStackdriverLine stackdriverToDevToolsLine
      rw [if_neg (by omega)]
      congr 1
      omega
    · unfold stackdriverToDevToolsLine
      rw [if_neg (by omega)]
    · unfold devToolsToStackdriverLine
      omega
  · intro h
    exact ⟨_, by unfold stackdriverToDevToolsLine; rw [if_pos h]⟩

theorem line_translation_inverses_witness :
    (stackdriverToDevToolsLine (devToolsToStackdriverLine 1337) = Except.ok 1337 ∧
     stackdriverToDevToolsLine 1337 = Except.ok 1336 ∧
     devToolsToStackdriverLine 1336 = 1337) ∧
    (∃ e, stackdriverToDevToolsLine 0 = Except.error e) :=
  ⟨(line_translation_inverses 1337).1 (by norm_num),
   (line_translation_inverses 0).2 (by norm_num)⟩

/-! ## C2: the status/diagnostic classifier -/

/-- A variable carrying a status object that does not match the expected
error-in-variable shape (`isError` is `false`). -/
def statusOnlyBadVariable : Variable :=
  Variable.mk none none none none none
    (some { isError := some false, refersTo := none, description := none })

/-- C2 counterexample: the classifier does raise an error — a variable with
a structured status object that fails the expected shape makes
`logVariableStatus` throw instead of logging. -/
theorem logVariableStatus_can_raise :
    statusOnlyBadVariable.status.isSome = true ∧
    ∃ e, logVariableStatus statusOnlyBadVariable = Except.error e :=
  ⟨rfl, ⟨_, rfl⟩⟩

/-- C2 (amended): the classifier logs at the lowest severity when the entry
carries a status object matching the known error-in-variable shape or when
its (statusless) name is on the noisy allow-list, logs at the more visible
`info` severity for any other statusless entry, and raises an error exactly
when a status object is present but fails the expected shape. -/
theorem logVariableStatus_classification (v : Variable) :
    ((∃ e, logVariableStatus v = Except.error e) ↔
      (v.status.isSome = true ∧ statusMatchesErrorShape v = false)) ∧
    (logVariableStatus v = Except.ok LogSeverity.silly ↔
      (statusMatchesErrorShape v = true ∨
       (v.status = none ∧
        (truthyS v.name && STATUS_MESSAGE_SET.contains (v.name.getD "")) = true))) ∧
    (logVariableStatus v = Except.ok LogSeverity.info ↔
      (v.status = none ∧
       (truthyS v.name && STATUS_MESSAGE_SET.contains (v.name.getD "")) = false)) := by
  cases hs : v.status with
  | none =>
      have hshape : statusMatchesErrorShape v = false := by
        unfold statusMatchesErrorShape
        rw [hs]
      have hlv : logVariableStatus v =
          (if truthyS v.name && STATUS_MESSAGE_SET.contains (v.name.getD "") then
            Except.ok LogSeverity.silly
          else Except.ok LogSeverity.info) := by
        unfold logVariableStatus
        rw [hs]
      by_cases hn : (truthyS v.name && STATUS_MESSAGE_SET.contains (v.name.getD "")) = true
      · rw [hlv, if_pos hn]
        refine ⟨?_, ?_, ?_⟩ <;> constructor <;> intro h' <;> simp_all
      · have hnf : (truthyS v.name && STATUS_MESSAGE_SET.contains (v.name.getD "")) = false := by
          simpa using hn
        rw [hlv, if_neg hn]
        refine ⟨?_, ?_, ?_⟩ <;> constructor <;> intro h' <;> simp_all
  | some st =>
      have hlv : logVariableStatus v =
          (if statusMatchesErrorShape v then Except.ok LogSeverity.silly
          else Except.error "variable from Stackdriver Debug has an unexpected format") := by
        unfold logVariableStatus
        rw [hs]
      by_cases hb : statusMatchesErrorShape v = true
      · rw [hlv, if_pos hb]
        refine ⟨?_, ?_, ?_⟩ <;> constructor <;> intro h' <;> simp_all
      · have hb' : statusMatchesErrorShape v = false := by simpa using hb
        rw [hlv, if_neg hb]
        refine ⟨?_, ?_, ?_⟩ <;> constructor <;> intro h' <;> simp_all

/-! ## C3: Error-valued entries without a stack member -/

/-- An Error-valued variable-table entry whose members lack a `stack`. -/
def errorNoStackVariable : Variable :=
  Variable.mk none (some "Error: boom") none none
    (some [Variable.mk (some "foo") (some "1") none none none none]) none

def errorNoStackSnapshot : CapturedSnapshot :=
  { id := "s3", isFinalState := true,
    variableTable := some [errorNoStackVariable] }

/-- C3 counterexample: an entry whose raw value starts with `Error` and
whose member list has no member named `stack` does NOT make snapshot
translation fail — the code only throws when the `members` field is
entirely absent, and otherwise falls back to the generic description. -/
theorem errorValue_without_stack_member_succeeds :
    jsStartsWith (errorNoStackVariable.value.getD "") "Error" = true ∧
    (errorNoStackVariable.members.getD []).all
      (fun mv => mv.name != some "stack") = true ∧
    ∃ ev mF, loadSnapshot "src" [] errorNoStackSnapshot = Except.ok (ev, mF) :=
  ⟨rfl, rfl, ⟨_, _, rfl⟩⟩

theorem pass1Descriptor_error_no_members (snapshotId : String) (i : Nat)
    (v : Variable) (hval : jsStartsWith (v.value.getD "") "Error" = true)
    (hnomem : v.members = none) :
    pass1Descriptor snapshotId i v =
      Except.error "error variable does not have the stack property" := by
  unfold pass1Descriptor classifyTableValue
  rw [hnomem, not_hash_of_error_start _ hval]
  simp [hval]

theorem pass1Entry_error_no_members (snapshotId : String) (i : Nat)
    (v : Variable) (vm : VarMap) (m : PDLMap)
    (hval : jsStartsWith (v.value.getD "") "Error" = true)
    (hnomem : v.members = none) :
    ∃ e, pass1Entry snapshotId i v vm m = Except.error e := by
  unfold pass1Entry
  by_cases h1 : (truthyS v.name || truthyS v.type || truthyN v.varTableIndex) = true
  · rw [if_pos h1]
    exact ⟨_, rfl⟩
  · rw [if_neg h1,
        if_pos (truthyS_of_jsStartsWith v.value "Error" (by decide) hval),
        pass1Descriptor_error_no_members snapshotId i v hval hnomem]
    exact ⟨_, rfl⟩

theorem pass1_error_of_bad_entry (snapshotId : String) (v : Variable)
    (hval : jsStartsWith (v.value.getD "") "Error" = true)
    (hnomem : v.members = none) :
    ∀ (vt : List Variable), v ∈ vt → ∀ i vm m,
      ∃ e, pass1 snapshotId vt i vm m = Except.error e := by
  intro vt
  induction vt with
  | nil => intro hmem; cases hmem
  | cons u rest ih =>
      intro hmem i vm m
      unfold pass1
      rcases List.mem_cons.mp hmem with hvu | hmemr
      · obtain ⟨e, he⟩ :=
          pass1Entry_error_no_members snapshotId i u vm m (hvu ▸ hval) (hvu ▸ hnomem)
        rw [he]
        exact ⟨e, rfl⟩
      · cases he : pass1Entry snapshotId i u vm m with
        | error e => exact ⟨e, rfl⟩
        | ok p =>
            rcases p with ⟨vm', m'⟩
            obtain ⟨e, hrest⟩ := ih hmemr (i + 1) vm' m'
            exact ⟨e, hrest⟩

/-- C3 (amended): snapshot translation fails for every variable-table entry
whose raw value starts with `Error` and whose `members` field is entirely
absent (when a member list is present but lacks a usable `stack` member,
translation instead proceeds with the generic `Error` description). -/
theorem errorValue_without_members_fails (dir : String) (m₀ : PDLMap)
    (snap : CapturedSnapshot) (v : Variable)
    (hmem : v ∈ snap.variableTable.getD [])
    (hval : jsStartsWith (v.value.getD "") "Error" = true)
    (hnomem : v.members = none) :
    ∃ e, loadSnapshot dir m₀ snap = Except.error e := by
  unfold loadSnapshot
  cases hfin : snap.isFinalState with
  | false => exact ⟨_, rfl⟩
  | true =>
      obtain ⟨e, hp1⟩ :=
        pass1_error_of_bad_entry snap.id v hval hnomem
          (snap.variableTable.getD []) hmem 0 [] m₀
      exact ⟨e, by simp [hp1]⟩

def errorAbsentMembersVariable : Variable :=
  Variable.mk none (some "Error: oops") none none none none

def errorAbsentMembersSnapshot : CapturedSnapshot :=
  { id := "s3w", isFinalState := true,
    variableTable := some [errorAbsentMembersVariable] }

theorem errorValue_without_members_fails_witness :
    ∃ e, loadSnapshot "src" [] errorAbsentMembersSnapshot = Except.error e :=
  errorValue_without_members_fails "src" [] errorAbsentMembersSnapshot
    errorAbsentMembersVariable (by simp [errorAbsentMembersSnapshot]) rfl rfl

/-! ## C9: back-reference index zero -/

/-- A valueless entry with back-reference index `0` and a malformed status
object. -/
def indexZeroBadStatusVariable : Variable :=
  Variable.mk none none (some 0) none none
    (some { isError := some true, refersTo := some "VARIABLE_VALUE",
            description := none })

/-- C9 counterexample: an entry with `varTableIndex = 0` and no raw value is
indeed routed to the status logger, but `parseVariable` does not always
return `null` — when the entry carries a malformed status object the logger
throws, so the whole parse fails instead of omitting the entry. -/
theorem parseVariable_index_zero_can_fail :
    indexZeroBadStatusVariable.varTableIndex = some 0 ∧
    truthyS indexZeroBadStatusVariable.value = false ∧
    parseVariable [] indexZeroBadStatusVariable =
      Except.error "variable from Stackdriver Debug has an unexpected format" ∧
    ∃ e, parseVariableList [] [indexZeroBadStatusVariable] = Except.error e :=
  ⟨rfl, rfl, rfl, ⟨_, rfl⟩⟩

/-- C9 (amended): a child or local entry without `type`/`members` fields
whose back-reference index is `0` and that has no raw value is never
resolved against the Pass-1 descriptor at table index 0; it is routed to
the status logger, and whenever the logger accepts it (anything but a
malformed status object) `parseVariable` returns `null`, so the entry is
omitted from the resulting property list. -/
theorem index_zero_entry_omitted (vm : VarMap) (v : Variable)
    (hidx : v.varTableIndex = some 0)
    (hval : truthyS v.value = false)
    (htype : truthyS v.type = false)
    (hmem : v.members = none)
    (hlog : (logVariableStatus v).isOk = true) :
    parseVariable vm v = Except.ok none ∧
    ∀ pre post,
      parseVariableList vm (pre ++ v :: post) = parseVariableList vm (pre ++ post) := by
  have hvr : truthyN v.varTableIndex = false := by
    rw [hidx]
    decide
  have hpv : parseVariable vm v = Except.ok none := by
    unfold parseVariable
    rw [if_neg, if_neg, if_neg]
    · cases hl : logVariableStatus v with
      | error e => rw [hl] at hlog; exact absurd hlog (by simp [Except.isOk, Except.toBool])
      | ok sev => rfl
    · simp [hval, hvr]
    · simp [hval]
    · simp [htype, hmem]
  have cons_none : ∀ rest : List Variable,
      parseVariableList vm (v :: rest) = parseVariableList vm rest := by
    intro rest
    conv_lhs => rw [parseVariableList]
    rw [hpv]
    cases hr : parseVariableList vm rest with
    | error e => rfl
    | ok ds => rfl
  refine ⟨hpv, ?_⟩
  intro pre post
  induction pre with
  | nil => exact cons_none post
  | cons p pre' ih =>
      show parseVariableList vm (p :: (pre' ++ v :: post)) =
        parseVariableList vm (p :: (pre' ++ post))
      unfold parseVariableList
      rw [ih]

/-! ## C10: frames carrying an `arguments` field -/

theorem buildFrame_arguments_error (snapshotId dir : String) (vm : VarMap)
    (i : Nat) (f : StackFrame) (m : PDLMap) (h : f.arguments.isSome = true) :
    ∃ e, buildFrame snapshotId dir vm i f m = Except.error e := by
  unfold buildFrame
  cases hf : frameScopeList vm f with
  | error e => exact ⟨e, rfl⟩
  | ok p =>
      rcases p with ⟨pl, ctx⟩
      refine ⟨"stack frame from Stackdriver Debug has arguments", ?_⟩
      unfold buildFrameRest
      simp [h]

theorem processFrames_arguments_error (snapshotId dir : String) (vm : VarMap)
    (f : StackFrame) (h : f.arguments.isSome = true) :
    ∀ (frames : List StackFrame), f ∈ frames → ∀ i m,
      ∃ e, processFrames snapshotId dir vm frames i m = Except.error e := by
  intro frames
  induction frames with
  | nil => intro hmem; cases hmem
  | cons g rest ih =>
      intro hmem i m
      unfold processFrames
      rcases List.mem_cons.mp hmem with hfg | hmemr
      · obtain ⟨e, he⟩ :=
          buildFrame_arguments_error snapshotId dir vm i g m (hfg ▸ h)
        rw [he]
        exact ⟨e, rfl⟩
      · cases hb : buildFrame snapshotId dir vm i g m with
        | error e => exact ⟨e, rfl⟩
        | ok p =>
            rcases p with ⟨cf, m'⟩
            obtain ⟨e, he⟩ := ih hmemr (i + 1) m'
            exact ⟨e, by simp [he, consFrame]⟩

/-- C10: snapshot translation fails for every snapshot containing a stack
frame whose `arguments` field is present — even an empty arguments list
(a truthy JS array) triggers the failure. -/
theorem frame_with_arguments_fails (dir : String) (m₀ : PDLMap)
    (snap : CapturedSnapshot) (f : StackFrame)
    (hmem : f ∈ snap.stackFrames.getD [])
    (hargs : f.arguments.isSome = true) :
    ∃ e, loadSnapshot dir m₀ snap = Except.error e := by
  unfold loadSnapshot
  cases hfin : snap.isFinalState with
  | false => exact ⟨_, rfl⟩
  | true =>
      cases hp1 : pass1 snap.id (snap.variableTable.getD []) 0 [] m₀ with
      | error e => exact ⟨e, by simp [hp1]⟩
      | ok p1 =>
          rcases p1 with ⟨vm, m1⟩
          cases hp2 : pass2 snap.id vm (snap.variableTable.getD []) 0 m1 with
          | error e => exact ⟨e, by simp [hp1, loadSnapshotAfterPass1, hp2]⟩
          | ok m2 =>
              obtain ⟨e, hpf⟩ :=
                processFrames_arguments_error snap.id dir vm f hargs
                  (snap.stackFrames.getD []) hmem 0 m2
              exact ⟨e, by simp [hp1, loadSnapshotAfterPass1, hp2,
                                 loadSnapshotFrames, hpf]⟩

/-- A frame with an empty (still truthy) `arguments` array. -/
def emptyArgumentsFrame : StackFrame :=
  { function := "f", location := { path := "a.js", line := 1 },
    locals := none, arguments := some [] }

def emptyArgumentsSnapshot : CapturedSnapshot :=
  { id := "w10", isFinalState := true,
    stackFrames := some [emptyArgumentsFrame] }

theorem frame_with_arguments_fails_witness :
    ∃ e, loadSnapshot "src" [] emptyArgumentsSnapshot = Except.error e :=
  frame_with_arguments_fails "src" [] emptyArgumentsSnapshot
    emptyArgumentsFrame (by simp [emptyArgumentsSnapshot]) rfl

def statuslessContextVariable : Variable :=
  Variable.mk (some "context") none (some 0) none none none

theorem index_zero_entry_omitted_witness :
    parseVariable [] statuslessContextVariable = Except.ok none ∧
    parseVariableList []
        [Variable.mk (some "a") (some "1") none none none none,
         statuslessContextVariable] =
      parseVariableList [] [Variable.mk (some "a") (some "1") none none none none] := by
  have h := index_zero_entry_omitted [] statuslessContextVariable rfl rfl rfl rfl rfl
  exact ⟨h.1, h.2 [Variable.mk (some "a") (some "1") none none none none] []⟩

/-! ## C5: setBreakpointByUrl line translation -/

/-- C5: a `setBreakpointByUrl` request at zero-indexed line 1337 for
`/path`, answered by the external client with a breakpoint at one-indexed
line 1338, yields the breakpoint id plus a single location whose scriptId
is the breakpoint's path and whose lineNumber is the zero-indexed 1337,
with columnNumber 0. -/
theorem setBreakpointByUrl_translates_lines (px : DebugProxyModel) (m : PDLMap)
    (rid : Nat) (params : RequestParams) (bp : Breakpoint)
    (hurl : params.url = some "/path") (hline : params.lineNumber = some 1337)
    (hbp : px.setBreakpoint { action := "CAPTURE", path := "/path",
                              line := some 1338,
                              condition := params.condition } = bp)
    (hbl : bp.location.line = 1338) :
    processRequest px m { id := rid, method := "Debugger.setBreakpointByUrl",
                          params := params } =
      Except.ok (ProcessedResponse.setBreakpointByUrl bp.id
        [{ scriptId := bp.location.path, lineNumber := 1337, columnNumber := 0 }]) := by
  have hred : processRequest px m { id := rid, method := "Debugger.setBreakpointByUrl",
                                    params := params } =
      (if !truthyS params.url then
        Except.error
          "the setBreakpointByUrl request from Chrome DevTools should specify the url property"
      else
        let breakpoint := px.setBreakpoint
          { action := "CAPTURE",
            path := params.url.getD "",
            line := params.lineNumber.map devToolsToStackdriverLine,
            condition := params.condition }
        match stackdriverToDevToolsLine breakpoint.location.line with
        | Except.error e => Except.error e
        | Except.ok ln =>
            Except.ok (ProcessedResponse.setBreakpointByUrl breakpoint.id
              [{ scriptId := breakpoint.location.path,
                 lineNumber := ln,
                 columnNumber := 0 }])) := rfl
  rw [hred, hurl, hline]
  rw [if_neg (by decide)]
  simp only [Option.getD_some, Option.map_some']
  norm_num [devToolsToStackdriverLine]
  rw [hbp, hbl]
  norm_num [stackdriverToDevToolsLine]

def witnessProxy : DebugProxyModel :=
  { debuggerId := "test-debugger-id",
    setBreakpoint := fun r => { id := "test-breakpoint-id",
                                location := { path := r.path,
                                              line := r.line.getD 0 } },
    readFile := fun _ => "" }

theorem setBreakpointByUrl_translates_lines_witness :
    processRequest witnessProxy []
        { id := 0, method := "Debugger.setBreakpointByUrl",
          params := { url := some "/path", lineNumber := some 1337 } } =
      Except.ok (ProcessedResponse.setBreakpointByUrl "test-breakpoint-id"
        [{ scriptId := "/path", lineNumber := 1337, columnNumber := 0 }]) :=
  setBreakpointByUrl_translates_lines witnessProxy [] 0
    { url := some "/path", lineNumber := some 1337 }
    { id := "test-breakpoint-id", location := { path := "/path", line := 1338 } }
    rfl rfl rfl rfl

/-! ## C6: enumerated unsupported and no-op method sets -/

/-- C6: every method in the enumerated unsupported sets (stepping,
evaluation, mutation methods of the Debugger and Runtime domains) fails
regardless of params; every method in the enumerated no-op sets returns
the empty result regardless of params. -/
theorem enumerated_methods_disposition (s : String) :
    (s ∈ unsupportedRequestMethods →
      ∀ (px : DebugProxyModel) (m : PDLMap) (rid : Nat) (params : RequestParams),
        ∃ e, processRequest px m { id := rid, method := s, params := params } =
          Except.error e) ∧
    (s ∈ noopRequestMethods →
      ∀ (px : DebugProxyModel) (m : PDLMap) (rid : Nat) (params : RequestParams),
        processRequest px m { id := rid, method := s, params := params } =
          Except.ok ProcessedResponse.empty) := by
  constructor
  · intro hs px m rid params
    fin_cases hs <;> exact ⟨"request is not supported", rfl⟩
  · intro hs px m rid params
    fin_cases hs <;> rfl

theorem enumerated_methods_disposition_witness :
    (∃ e, processRequest witnessProxy []
        { id := 0, method := "Debugger.stepInto", params := {} } = Except.error e) ∧
    processRequest witnessProxy []
        { id := 1, method := "Runtime.releaseObject", params := {} } =
      Except.ok ProcessedResponse.empty :=
  ⟨(enumerated_methods_disposition "Debugger.stepInto").1
      (by simp [unsupportedRequestMethods]) witnessProxy [] 0 {},
   (enumerated_methods_disposition "Runtime.releaseObject").2
      (by simp [noopRequestMethods]) witnessProxy [] 1 {}⟩

/-! ## C7: getProperties lookup -/

/-- C7: `Runtime.getProperties` with an object identifier that was never
registered in the property-descriptor store fails with a not-found error,
and with a registered identifier returns exactly the stored list, in the
stored order. -/
theorem getProperties_lookup (px : DebugProxyModel) (m : PDLMap) (rid : Nat)
    (params : RequestParams) (oid : ObjectId)
    (hoid : params.objectId = some oid) :
    (mapGet m oid = none →
      ∃ e, processRequest px m { id := rid, method := "Runtime.getProperties",
                                 params := params } = Except.error e) ∧
    (∀ l, mapGet m oid = some l →
      processRequest px m { id := rid, method := "Runtime.getProperties",
                            params := params } =
        Except.ok (ProcessedResponse.getProperties l)) := by
  have hred : processRequest px m { id := rid, method := "Runtime.getProperties",
                                    params := params } =
      (match params.objectId with
       | none =>
           Except.error
             "the remote object does not exist in the internal object property map"
       | some oid =>
           match mapGet m oid with
           | none =>
               Except.error
                 "the remote object with this ID does not exist in the internal object property map"
           | some propertyDescriptorList =>
               Except.ok (ProcessedResponse.getProperties propertyDescriptorList)) := rfl
  constructor
  · intro hm
    refine ⟨"the remote object with this ID does not exist in the internal object property map", ?_⟩
    rw [hred, hoid]
    simp [hm]
  · intro l hm
    rw [hred, hoid]
    simp [hm]

def storedDescriptor : PropertyDescriptor :=
  { name := "answer", value := some { type := "number", description := some "42" },
    configurable := false, enumerable := true }

theorem getProperties_lookup_witness :
    (∃ e, processRequest witnessProxy [(ObjectId.object "w" 0, [storedDescriptor])]
        { id := 0, method := "Runtime.getProperties",
          params := { objectId := some (ObjectId.scope "other" 3) } } = Except.error e) ∧
    processRequest witnessProxy [(ObjectId.object "w" 0, [storedDescriptor])]
        { id := 1, method := "Runtime.getProperties",
          params := { objectId := some (ObjectId.object "w" 0) } } =
      Except.ok (ProcessedResponse.getProperties [storedDescriptor]) :=
  ⟨(getProperties_lookup witnessProxy [(ObjectId.object "w" 0, [storedDescriptor])]
      0 { objectId := some (ObjectId.scope "other" 3) } (ObjectId.scope "other" 3) rfl).1
      (by decide),
   (getProperties_lookup witnessProxy [(ObjectId.object "w" 0, [storedDescriptor])]
      1 { objectId := some (ObjectId.object "w" 0) } (ObjectId.object "w" 0) rfl).2
      [storedDescriptor] (by decide)⟩

/-! ## Storage lemmas for Pass 2 and the frame stage -/

theorem pass2Entry_get (snapshotId : String) (vm : VarMap) (i : Nat) (v : Variable)
    (m m1 : PDLMap) (h : pass2Entry snapshotId vm i v m = Except.ok m1)
    (oid : ObjectId) (hne : oid ≠ ObjectId.object snapshotId i) :
    mapGet m1 oid = mapGet m oid := by
  unfold pass2Entry at h
  by_cases h1 : (truthyS v.type || truthyN v.varTableIndex) = true
  · rw [if_pos h1] at h
    exact Except.noConfusion h
  · rw [if_neg h1] at h
    by_cases h2 : truthyS v.value = true
    · rw [if_pos h2] at h
      cases hp : pass2PDL vm i v with
      | error e => rw [hp] at h; exact Except.noConfusion h
      | ok pdl =>
          rw [hp] at h
          injection h with h3
          rw [← h3]
          exact mapGet_mapSet_ne m (ObjectId.object snapshotId i) oid pdl hne
    · rw [if_neg h2] at h
      injection h with h3
      rw [← h3]

theorem pass2_preserves (snapshotId : String) (vm : VarMap) :
    ∀ (vt : List Variable) (i0 : Nat) (m m' : PDLMap),
      pass2 snapshotId vm vt i0 m = Except.ok m' →
      ∀ oid : ObjectId, (∀ n, i0 ≤ n → oid ≠ ObjectId.object snapshotId n) →
        mapGet m' oid = mapGet m oid := by
  intro vt
  induction vt with
  | nil =>
      intro i0 m m' h oid _
      unfold pass2 at h
      injection h with h1
      rw [h1]
  | cons v rest ih =>
      intro i0 m m' h oid hoid
      unfold pass2 at h
      cases he : pass2Entry snapshotId vm i0 v m with
      | error e => rw [he] at h; exact Except.noConfusion h
      | ok m1 =>
          rw [he] at h
          have hrest := ih (i0 + 1) m1 m' h oid
            (fun n hn => hoid n (Nat.le_of_succ_le hn))
          rw [hrest]
          exact pass2Entry_get snapshotId vm i0 v m m1 he oid (hoid i0 (Nat.le_refl i0))

theorem pass2_stores (snapshotId : String) (vm : VarMap) :
    ∀ (vt : List Variable) (i0 : Nat) (m m' : PDLMap),
      pass2 snapshotId vm vt i0 m = Except.ok m' →
      ∀ j v, vt.get? j = some v → truthyS v.value = true →
        ∃ pdl, pass2PDL vm (i0 + j) v = Except.ok pdl ∧
          mapGet m' (ObjectId.object snapshotId (i0 + j)) = some pdl := by
  intro vt
  induction vt with
  | nil => intro i0 m m' h j v hj; exact absurd hj (by simp)
  | cons u rest ih =>
      intro i0 m m' h j v hj hval
      unfold pass2 at h
      cases he : pass2Entry snapshotId vm i0 u m with
      | error e => rw [he] at h; exact Except.noConfusion h
      | ok m1 =>
          rw [he] at h
          cases j with
          | zero =>
              have huv : u = v := by
                have hsome : some u = some v := by simpa using hj
                exact Option.some.inj hsome
              subst huv
              unfold pass2Entry at he
              by_cases h1 : (truthyS u.type || truthyN u.varTableIndex) = true
              · rw [if_pos h1] at he
                exact Except.noConfusion he
              · rw [if_neg h1, if_pos hval] at he
                cases hp : pass2PDL vm i0 u with
                | error e => rw [hp] at he; exact Except.noConfusion he
                | ok pdl =>
                    rw [hp] at he
                    injection he with he1
                    refine ⟨pdl, ?_, ?_⟩
                    · rw [Nat.add_zero]
                      exact hp
                    · have hpres := pass2_preserves snapshotId vm rest (i0 + 1) m1 m' h
                        (ObjectId.object snapshotId i0)
                        (fun n hn heq => by
                          simp only [ObjectId.object.injEq] at heq
                          obtain ⟨-, h2⟩ := heq
                          omega)
                      rw [Nat.add_zero, hpres, ← he1]
                      exact mapGet_mapSet_self m (ObjectId.object snapshotId i0) pdl
          | succ j' =>
              have hj' : rest.get? j' = some v := by simpa using hj
              have hrec := ih (i0 + 1) m1 m' h j' v hj' hval
              have harith : i0 + (j' + 1) = (i0 + 1) + j' := by omega
              rw [harith]
              exact hrec

theorem buildFrame_eq_rest (snapshotId dir : String) (vm : VarMap) (i : Nat)
    (f : StackFrame) (m : PDLMap) (pl : List PropertyDescriptor)
    (ctx : Option RemoteObject)
    (hf : frameScopeList vm f = Except.ok (pl, ctx)) :
    buildFrame snapshotId dir vm i f m = buildFrameRest snapshotId dir i f pl ctx m := by
  unfold buildFrame
  rw [hf]

theorem buildFrame_eq_error (snapshotId dir : String) (vm : VarMap) (i : Nat)
    (f : StackFrame) (m : PDLMap) (e : String)
    (hf : frameScopeList vm f = Except.error e) :
    buildFrame snapshotId dir vm i f m = Except.error e := by
  unfold buildFrame
  rw [hf]

theorem buildFrame_get (snapshotId dir : String) (vm : VarMap) (i : Nat)
    (f : StackFrame) (m : PDLMap) (cf : CallFrame) (m1 : PDLMap)
    (h : buildFrame snapshotId dir vm i f m = Except.ok (cf, m1))
    (oid : ObjectId) (hne : oid ≠ ObjectId.scope snapshotId i) :
    mapGet m1 oid = mapGet m oid := by
  cases hf : frameScopeList vm f with
  | error e =>
      rw [buildFrame_eq_error snapshotId dir vm i f m e hf] at h
      exact Except.noConfusion h
  | ok p =>
      rcases p with ⟨pl, ctx⟩
      rw [buildFrame_eq_rest snapshotId dir vm i f m pl ctx hf] at h
      unfold buildFrameRest at h
      by_cases ha : f.arguments.isSome = true
      · rw [if_pos ha] at h
        exact Except.noConfusion h
      · rw [if_neg ha] at h
        cases hl : stackdriverToDevToolsLine f.location.line with
        | error e => rw [hl] at h; exact Except.noConfusion h
        | ok line =>
            rw [hl] at h
            injection h with h3
            injection h3 with h4 h5
            rw [← h5]
            exact mapGet_mapSet_ne m (ObjectId.scope snapshotId i) oid pl hne

/-- Anatomy of one successful frame build: the scope list, context, line
number, the produced call-frame record, and the store write. -/
theorem buildFrame_anatomy (snapshotId dir : String) (vm : VarMap) (i : Nat)
    (f : StackFrame) (m : PDLMap) (cf : CallFrame) (m1 : PDLMap)
    (h : buildFrame snapshotId dir vm i f m = Except.ok (cf, m1)) :
    ∃ pl ctx line,
      frameScopeList vm f = Except.ok (pl, ctx) ∧
      stackdriverToDevToolsLine f.location.line = Except.ok line ∧
      cf = { callFrameId := snapshotId ++ "-frame-" ++ toString i,
             functionName := f.function,
             location := { scriptId := pathResolve dir f.location.path,
                           lineNumber := line },
             scopeChain := [{ type := "local",
                              object := { type := "object",
                                          objectId := some (ObjectId.scope snapshotId i) } }],
             thisObject := ctx.getD undefinedRemoteObject } ∧
      m1 = mapSet m (ObjectId.scope snapshotId i) pl := by
  cases hf : frameScopeList vm f with
  | error e =>
      rw [buildFrame_eq_error snapshotId dir vm i f m e hf] at h
      exact Except.noConfusion h
  | ok p =>
      rcases p with ⟨pl, ctx⟩
      rw [buildFrame_eq_rest snapshotId dir vm i f m pl ctx hf] at h
      unfold buildFrameRest at h
      by_cases ha : f.arguments.isSome = true
      · rw [if_pos ha] at h
        exact Except.noConfusion h
      · rw [if_neg ha] at h
        cases hl : stackdriverToDevToolsLine f.location.line with
        | error e => rw [hl] at h; exact Except.noConfusion h
        | ok line =>
            rw [hl] at h
            injection h with h3
            injection h3 with h4 h5
            exact ⟨pl, ctx, line, rfl, rfl, h4.symm, h5.symm⟩

theorem consFrame_ok (cf : CallFrame) (x : Except String (List CallFrame × PDLMap))
    (cfs : List CallFrame) (m' : PDLMap) (h : consFrame cf x = Except.ok (cfs, m')) :
    ∃ cfs', x = Except.ok (cfs', m') ∧ cfs = cf :: cfs' := by
  cases x with
  | error e => exact Except.noConfusion h
  | ok q =>
      rcases q with ⟨cfs', m''⟩
      have h' : Except.ok (cf :: cfs', m'') = Except.ok (cfs, m') := h
      injection h' with h1
      injection h1 with h2 h3
      exact ⟨cfs', by rw [h3], h2.symm⟩

theorem processFrames_preserves (snapshotId dir : String) (vm : VarMap) :
    ∀ (frames : List StackFrame) (i0 : Nat) (m : PDLMap) (cfs : List CallFrame)
      (m' : PDLMap),
      processFrames snapshotId dir vm frames i0 m = Except.ok (cfs, m') →
      ∀ oid : ObjectId, (∀ n, i0 ≤ n → oid ≠ ObjectId.scope snapshotId n) →
        mapGet m' oid = mapGet m oid := by
  intro frames
  induction frames with
  | nil =>
      intro i0 m cfs m' h oid _
      unfold processFrames at h
      injection h with h1
      injection h1 with h2 h3
      rw [← h3]
  | cons f rest ih =>
      intro i0 m cfs m' h oid hoid
      unfold processFrames at h
      cases hb : buildFrame snapshotId dir vm i0 f m with
      | error e => rw [hb] at h; exact Except.noConfusion h
      | ok p =>
          rcases p with ⟨cf, m1⟩
          rw [hb] at h
          have h' : consFrame cf (processFrames snapshotId dir vm rest (i0 + 1) m1) =
              Except.ok (cfs, m') := h
          obtain ⟨cfs', hr, hcons⟩ := consFrame_ok cf _ cfs m' h'
          have hrest := ih (i0 + 1) m1 cfs' m' hr oid
            (fun n hn => hoid n (Nat.le_of_succ_le hn))
          rw [hrest]
          exact buildFrame_get snapshotId dir vm i0 f m cf m1 hb oid
            (hoid i0 (Nat.le_refl i0))

/-- Anatomy of a successful frame stage: each frame's call-frame record is
at its own position, and each frame's scope list survives in the final
store under its scope identifier. -/
theorem processFrames_builds (snapshotId dir : String) (vm : VarMap) :
    ∀ (frames : List StackFrame) (i0 : Nat) (m : PDLMap) (cfs : List CallFrame)
      (m' : PDLMap),
      processFrames snapshotId dir vm frames i0 m = Except.ok (cfs, m') →
      ∀ j f, frames.get? j = some f →
        ∃ pl ctx line,
          frameScopeList vm f = Except.ok (pl, ctx) ∧
          stackdriverToDevToolsLine f.location.line = Except.ok line ∧
          cfs.get? j = some
            { callFrameId := snapshotId ++ "-frame-" ++ toString (i0 + j),
              functionName := f.function,
              location := { scriptId := pathResolve dir f.location.path,
                            lineNumber := line },
              scopeChain := [{ type := "local",
                               object := { type := "object",
                                           objectId := some (ObjectId.scope snapshotId (i0 + j)) } }],
              thisObject := ctx.getD undefinedRemoteObject } ∧
          mapGet m' (ObjectId.scope snapshotId (i0 + j)) = some pl := by
  intro frames
  induction frames with
  | nil => intro i0 m cfs m' h j f hj; exact absurd hj (by simp)
  | cons g rest ih =>
      intro i0 m cfs m' h j f hj
      unfold processFrames at h
      cases hb : buildFrame snapshotId dir vm i0 g m with
      | error e => rw [hb] at h; exact Except.noConfusion h
      | ok p =>
          rcases p with ⟨cf, m1⟩
          rw [hb] at h
          have h' : consFrame cf (processFrames snapshotId dir vm rest (i0 + 1) m1) =
              Except.ok (cfs, m') := h
          obtain ⟨cfs', hr, hcons⟩ := consFrame_ok cf _ cfs m' h'
          cases j with
          | zero =>
              have hgf : g = f := by
                have hsome : some g = some f := by simpa using hj
                exact Option.some.inj hsome
              subst hgf
              obtain ⟨pl, ctx, line, hfs, hline, hcf, hm1⟩ :=
                buildFrame_anatomy snapshotId dir vm i0 g m cf m1 hb
              refine ⟨pl, ctx, line, hfs, hline, ?_, ?_⟩
              · rw [hcons, hcf]
                simp
              · have hpres := processFrames_preserves snapshotId dir vm rest
                  (i0 + 1) m1 cfs' m' hr (ObjectId.scope snapshotId i0)
                  (fun n hn heq => by
                    simp only [ObjectId.scope.injEq] at heq
                    obtain ⟨-, hn2⟩ := heq
                    omega)
                rw [Nat.add_zero, hpres, hm1]
                exact mapGet_mapSet_self m (ObjectId.scope snapshotId i0) pl
          | succ j' =>
              have hj' : rest.get? j' = some f := by simpa using hj
              obtain ⟨pl, ctx, line, hfs, hline, hcf, hmap⟩ :=
                ih (i0 + 1) m1 cfs' m' hr j' f hj'
              have harith : (i0 + 1) + j' = i0 + (j' + 1) := by omega
              rw [harith] at hcf hmap
              refine ⟨pl, ctx, line, hfs, hline, ?_, ?_⟩
              · rw [hcons]
                simpa using hcf
              · exact hmap

/-! ## Storage lemmas for Pass 1 -/

theorem pass1Entry_vm_get (snapshotId : String) (i : Nat) (v : Variable)
    (vm : VarMap) (m : PDLMap) (vm' : VarMap) (m' : PDLMap)
    (h : pass1Entry snapshotId i v vm m = Except.ok (vm', m'))
    (n : Nat) (hn : n ≠ i) : mapGet vm' n = mapGet vm n := by
  unfold pass1Entry at h
  by_cases h1 : (truthyS v.name || truthyS v.type || truthyN v.varTableIndex) = true
  · rw [if_pos h1] at h
    exact Except.noConfusion h
  · rw [if_neg h1] at h
    by_cases h2 : truthyS v.value = true
    · rw [if_pos h2] at h
      cases hd : pass1Descriptor snapshotId i v with
      | error e => rw [hd] at h; exact Except.noConfusion h
      | ok ro =>
          rw [hd] at h
          injection h with h3
          injection h3 with hA hB
          rw [← hA]
          exact mapGet_mapSet_ne vm i n ro hn
    · rw [if_neg h2] at h
      cases hl : logVariableStatus v with
      | error e => rw [hl] at h; exact Except.noConfusion h
      | ok sev =>
          rw [hl] at h
          injection h with h3
          injection h3 with hA hB
          rw [← hA]

theorem pass1_vm_preserves (snapshotId : String) :
    ∀ (vt : List Variable) (i0 : Nat) (vm : VarMap) (m : PDLMap)
      (vm' : VarMap) (m' : PDLMap),
      pass1 snapshotId vt i0 vm m = Except.ok (vm', m') →
      ∀ n, n < i0 → mapGet vm' n = mapGet vm n := by
  intro vt
  induction vt with
  | nil =>
      intro i0 vm m vm' m' h n _
      unfold pass1 at h
      injection h with h1
      injection h1 with h2 h3
      rw [← h2]
  | cons v rest ih =>
      intro i0 vm m vm' m' h n hn
      unfold pass1 at h
      cases he : pass1Entry snapshotId i0 v vm m with
      | error e => rw [he] at h; exact Except.noConfusion h
      | ok p =>
          rcases p with ⟨vm1, m1⟩
          rw [he] at h
          have h' : pass1 snapshotId rest (i0 + 1) vm1 m1 = Except.ok (vm', m') := h
          have hrest := ih (i0 + 1) vm1 m1 vm' m' h' n (Nat.lt_succ_of_lt hn)
          rw [hrest]
          exact pass1Entry_vm_get snapshotId i0 v vm m vm1 m1 he n (Nat.ne_of_lt hn)

theorem pass1_stores (snapshotId : String) :
    ∀ (vt : List Variable) (i0 : Nat) (vm : VarMap) (m : PDLMap)
      (vm' : VarMap) (m' : PDLMap),
      pass1 snapshotId vt i0 vm m = Except.ok (vm', m') →
      ∀ j v, vt.get? j = some v → truthyS v.value = true →
        ∃ ro, pass1Descriptor snapshotId (i0 + j) v = Except.ok ro ∧
          mapGet vm' (i0 + j) = some ro := by
  intro vt
  induction vt with
  | nil => intro i0 vm m vm' m' h j v hj; exact absurd hj (by simp)
  | cons u rest ih =>
      intro i0 vm m vm' m' h j v hj hval
      unfold pass1 at h
      cases he : pass1Entry snapshotId i0 u vm m with
      | error e => rw [he] at h; exact Except.noConfusion h
      | ok p =>
          rcases p with ⟨vm1, m1⟩
          rw [he] at h
          have h' : pass1 snapshotId rest (i0 + 1) vm1 m1 = Except.ok (vm', m') := h
          cases j with
          | zero =>
              have huv : u = v := by
                have hsome : some u = some v := by simpa using hj
                exact Option.some.inj hsome
              subst huv
              unfold pass1Entry at he
              by_cases h1 : (truthyS u.name || truthyS u.type || truthyN u.varTableIndex) = true
              · rw [if_pos h1] at he
                exact Except.noConfusion he
              · rw [if_neg h1, if_pos hval] at he
                cases hd : pass1Descriptor snapshotId i0 u with
                | error e => rw [hd] at he; exact Except.noConfusion he
                | ok ro =>
                    rw [hd] at he
                    injection he with he1
                    injection he1 with heA heB
                    refine ⟨ro, ?_, ?_⟩
                    · rw [Nat.add_zero]
                      exact hd
                    · have hpres := pass1_vm_preserves snapshotId rest (i0 + 1)
                        vm1 m1 vm' m' h' i0 (Nat.lt_succ_self i0)
                      rw [Nat.add_zero, hpres, ← heA]
                      exact mapGet_mapSet_self vm i0 ro
          | succ j' =>
              have hj' : rest.get? j' = some v := by simpa using hj
              have hrec := ih (i0 + 1) vm1 m1 vm' m' h' j' v hj' hval
              have harith : i0 + (j' + 1) = (i0 + 1) + j' := by omega
              rw [harith]
              exact hrec

theorem pass1Descriptor_objectId_members (snapshotId : String) (i : Nat)
    (v : Variable) (ro : RemoteObject)
    (h : pass1Descriptor snapshotId i v = Except.ok ro)
    (hm : v.members.isSome = true) :
    ro.objectId = some (ObjectId.object snapshotId i) := by
  unfold pass1Descriptor at h
  cases hc : classifyTableValue (v.value.getD "") v.members with
  | error e => rw [hc] at h; exact Except.noConfusion h
  | ok triple =>
      rcases triple with ⟨className, subtype, description⟩
      rw [hc] at h
      injection h with h1
      rw [← h1]
      simp [hm]

/-! ## C1: where Pass 2 stores the property descriptor list -/

def objectEntryVariable : Variable :=
  Variable.mk none (some "#<Object>") none none none none

def objectEntrySnapshot : CapturedSnapshot :=
  { id := "s", isFinalState := true,
    variableTable := some [objectEntryVariable] }

def objectEntryDescriptor : RemoteObject :=
  { type := "object", className := some "Object", description := some "Object",
    objectId := some (ObjectId.empty "s" 0) }

def objectEntrySingleton : PropertyDescriptor :=
  { name := "#<Object>", value := some objectEntryDescriptor,
    configurable := false, enumerable := true }

def objectEntryFinalStore : PDLMap :=
  [(ObjectId.empty "s" 0, []), (ObjectId.object "s" 0, [objectEntrySingleton])]

def objectEntryEvent : PausedEventData :=
  { reason := "other", hitBreakpoints := ["s"], callFrames := [] }

/-- C1 counterexample: for a no-children entry the singleton property list
is NOT stored under the Pass-1-assigned identifier.  For the entry
`#<Object>` Pass 1 assigns the `-empty-` identifier (mapped to the empty
list), while Pass 2 stores the singleton under the separate `-object-`
key, which no Pass-1 descriptor references. -/
theorem singleton_not_under_pass1_identifier :
    loadSnapshot "src" [] objectEntrySnapshot =
      Except.ok (objectEntryEvent, objectEntryFinalStore) ∧
    pass1 "s" [objectEntryVariable] 0 [] [] =
      Except.ok ([(0, objectEntryDescriptor)], [(ObjectId.empty "s" 0, [])]) ∧
    objectEntryDescriptor.objectId = some (ObjectId.empty "s" 0) ∧
    mapGet objectEntryFinalStore (ObjectId.empty "s" 0) = some [] ∧
    mapGet objectEntryFinalStore (ObjectId.object "s" 0) = some [objectEntrySingleton] ∧
    ([objectEntrySingleton] : List PropertyDescriptor) ≠ [] :=
  ⟨rfl, rfl, rfl, rfl, rfl, by decide⟩

/-- C1 (amended): for every variable-table entry with a raw value, the
computed property descriptor list (the parsed members if it has children,
else the singleton named after the raw value and pointing at the Pass-1
descriptor) is stored under the key `snapshotId-object-index`; for an
entry with children that key is exactly the Pass-1-assigned identifier,
but for an entry without children the Pass-1 descriptor carries either
the separate `-empty-` identifier or no identifier at all, so the list is
stored under a key that no Pass-1 descriptor references. -/
theorem pass2_storage_location (dir : String) (m₀ : PDLMap)
    (snap : CapturedSnapshot) (ev : PausedEventData) (mF : PDLMap)
    (j : Nat) (v : Variable)
    (hload : loadSnapshot dir m₀ snap = Except.ok (ev, mF))
    (hj : (snap.variableTable.getD []).get? j = some v)
    (hval : truthyS v.value = true) :
    ∃ vm m1 pdl,
      pass1 snap.id (snap.variableTable.getD []) 0 [] m₀ = Except.ok (vm, m1) ∧
      pass2PDL vm j v = Except.ok pdl ∧
      mapGet mF (ObjectId.object snap.id j) = some pdl ∧
      (v.members = none →
        pdl = [{ name := v.value.getD "", value := mapGet vm j,
                 configurable := false, enumerable := true }]) ∧
      (v.members.isSome = true →
        ∃ ro, mapGet vm j = some ro ∧
          ro.objectId = some (ObjectId.object snap.id j)) := by
  unfold loadSnapshot at hload
  by_cases hfin : ((!snap.isFinalState) = true)
  · rw [if_pos hfin] at hload
    exact Except.noConfusion hload
  · rw [if_neg hfin] at hload
    cases hp1 : pass1 snap.id (snap.variableTable.getD []) 0 [] m₀ with
    | error e => rw [hp1] at hload; exact Except.noConfusion hload
    | ok p1 =>
        rcases p1 with ⟨vm, m1⟩
        rw [hp1] at hload
        have hload1 : loadSnapshotAfterPass1 dir snap.id
            (snap.variableTable.getD []) (snap.stackFrames.getD []) vm m1 =
            Except.ok (ev, mF) := hload
        unfold loadSnapshotAfterPass1 at hload1
        cases hp2 : pass2 snap.id vm (snap.variableTable.getD []) 0 m1 with
        | error e => rw [hp2] at hload1; exact Except.noConfusion hload1
        | ok m2 =>
            rw [hp2] at hload1
            have hload2 : loadSnapshotFrames dir snap.id vm
                (snap.stackFrames.getD []) m2 = Except.ok (ev, mF) := hload1
            unfold loadSnapshotFrames at hload2
            cases hpf : processFrames snap.id dir vm (snap.stackFrames.getD []) 0 m2 with
            | error e => rw [hpf] at hload2; exact Except.noConfusion hload2
            | ok q =>
                rcases q with ⟨cfs, m3⟩
                rw [hpf] at hload2
                have hload3 : Except.ok
                    (({ reason := "other", hitBreakpoints := [snap.id],
                        callFrames := cfs } : PausedEventData), m3) =
                    Except.ok (ev, mF) := hload2
                injection hload3 with hpair
                injection hpair with hev hmF
                obtain ⟨pdl, hpdl, hstored⟩ :=
                  pass2_stores snap.id vm (snap.variableTable.getD []) 0 m1 m2
                    hp2 j v hj hval
                rw [Nat.zero_add] at hpdl hstored
                have hscopes : mapGet m3 (ObjectId.object snap.id j) =
                    mapGet m2 (ObjectId.object snap.id j) :=
                  processFrames_preserves snap.id dir vm (snap.stackFrames.getD [])
                    0 m2 cfs m3 hpf (ObjectId.object snap.id j)
                    (fun n _ heq => ObjectId.noConfusion heq)
                refine ⟨vm, m1, pdl, rfl, hpdl, ?_, ?_, ?_⟩
                · rw [← hmF, hscopes]
                  exact hstored
                · intro hmem
                  unfold pass2PDL at hpdl
                  rw [hmem] at hpdl
                  injection hpdl with hpl
                  exact hpl.symm
                · intro hmem
                  obtain ⟨ro, hro, hroget⟩ :=
                    pass1_stores snap.id (snap.variableTable.getD []) 0 [] m₀
                      vm m1 hp1 j v hj hval
                  rw [Nat.zero_add] at hro hroget
                  exact ⟨ro, hroget,
                    pass1Descriptor_objectId_members snap.id j v ro hro hmem⟩

theorem pass2_storage_location_witness :
    ∃ vm m1 pdl,
      pass1 "s" [objectEntryVariable] 0 [] [] = Except.ok (vm, m1) ∧
      pass2PDL vm 0 objectEntryVariable = Except.ok pdl ∧
      mapGet objectEntryFinalStore (ObjectId.object "s" 0) = some pdl ∧
      (objectEntryVariable.members = none →
        pdl = [{ name := objectEntryVariable.value.getD "",
                 value := mapGet vm 0,
                 configurable := false, enumerable := true }]) ∧
      (objectEntryVariable.members.isSome = true →
        ∃ ro, mapGet vm 0 = some ro ∧
          ro.objectId = some (ObjectId.object "s" 0)) :=
  pass2_storage_location "src" [] objectEntrySnapshot objectEntryEvent
    objectEntryFinalStore 0 objectEntryVariable rfl rfl rfl

/-! ## C4: the trailing `context` local and the `this` binding -/

theorem popContext_last (vm : VarMap) (ls : List Variable) (lv : Variable)
    (h : ls.getLast? = some lv) :
    popContext vm ls =
      (if lv.name == some "context" && truthyN lv.varTableIndex then
        (ls.dropLast, mapGet vm (lv.varTableIndex.getD 0))
      else (ls, none)) := by
  unfold popContext
  rw [h]

theorem frameScopeList_some (vm : VarMap) (f : StackFrame) (ls : List Variable)
    (h : f.locals = some ls) :
    frameScopeList vm f = frameScopeCont vm (popContext vm ls) := by
  unfold frameScopeList
  rw [h]

theorem frameScopeCont_eq (vm : VarMap) (ls' : List Variable)
    (ctx : Option RemoteObject) :
    frameScopeCont vm (ls', ctx) =
      (match parseVariableList vm ls' with
       | Except.error e => Except.error e
       | Except.ok pl => Except.ok (pl, ctx)) := rfl

def fooWrapperVariable : Variable :=
  Variable.mk none (some "#<Foo>") none none none none

def fooDescriptor : RemoteObject :=
  { type := "object", className := some "Foo", description := some "Foo" }

def contextZeroLocal : Variable :=
  Variable.mk (some "context") none (some 0) none none none

def contextZeroFrame : StackFrame :=
  { function := "fn", location := { path := "/a.js", line := 1 },
    locals := some [contextZeroLocal] }

def contextZeroSnapshot : CapturedSnapshot :=
  { id := "c", isFinalState := true, stackFrames := some [contextZeroFrame],
    variableTable := some [fooWrapperVariable] }

def contextZeroCallFrame : CallFrame :=
  { callFrameId := "c-frame-0", functionName := "fn",
    location := { scriptId := "/a.js", lineNumber := 0 },
    scopeChain := [{ type := "local",
                     object := { type := "object",
                                 objectId := some (ObjectId.scope "c" 0) } }],
    thisObject := undefinedRemoteObject }

/-- C4 counterexample: when the trailing `context` local carries
back-reference index 0 (a falsy JS number), the binding convention does
not fire: the Pass-1 descriptor exists at table index 0, yet the call
frame's `this` is the undefined object rather than that descriptor. -/
theorem context_index_zero_not_bound :
    pass1 "c" [fooWrapperVariable] 0 [] [] =
      Except.ok ([(0, fooDescriptor)], []) ∧
    mapGet [(0, fooDescriptor)] 0 = some fooDescriptor ∧
    ∃ ev mF, loadSnapshot "src" [] contextZeroSnapshot = Except.ok (ev, mF) ∧
      ev.callFrames.get? 0 = some contextZeroCallFrame ∧
      contextZeroCallFrame.thisObject ≠ fooDescriptor :=
  ⟨rfl, rfl, ⟨_, _, rfl, rfl, by decide⟩⟩

/-- C4 (amended): for every finalized snapshot with a stack frame whose
locals are non-empty and end with an entry named `context` carrying a
NONZERO back-reference index `k` resolvable in the Pass-1 map, the
resulting call frame's `this` binding is the Pass-1 descriptor at table
index `k`, and the entry is excluded from the frame's local-scope
property list (the list stored under the frame's scope identifier is the
parse of the locals without their last entry).  Index 0 is falsy in JS,
so the convention does not fire for `k = 0`. -/
theorem context_local_binds_this (dir : String) (m₀ : PDLMap)
    (snap : CapturedSnapshot) (ev : PausedEventData) (mF : PDLMap)
    (i : Nat) (f : StackFrame) (ls : List Variable) (lv : Variable) (k : Nat)
    (vm : VarMap) (m1 : PDLMap) (d : RemoteObject)
    (hload : loadSnapshot dir m₀ snap = Except.ok (ev, mF))
    (hframe : (snap.stackFrames.getD []).get? i = some f)
    (hlocals : f.locals = some ls)
    (hlast : ls.getLast? = some lv)
    (hname : lv.name = some "context")
    (hidx : lv.varTableIndex = some k)
    (hk : k ≠ 0)
    (hpass1 : pass1 snap.id (snap.variableTable.getD []) 0 [] m₀ =
      Except.ok (vm, m1))
    (hd : mapGet vm k = some d) :
    ∃ cf pl,
      ev.callFrames.get? i = some cf ∧
      cf.thisObject = d ∧
      parseVariableList vm ls.dropLast = Except.ok pl ∧
      mapGet mF (ObjectId.scope snap.id i) = some pl := by
  unfold loadSnapshot at hload
  by_cases hfin : ((!snap.isFinalState) = true)
  · rw [if_pos hfin] at hload
    exact Except.noConfusion hload
  · rw [if_neg hfin, hpass1] at hload
    have hload1 : loadSnapshotAfterPass1 dir snap.id (snap.variableTable.getD [])
        (snap.stackFrames.getD []) vm m1 = Except.ok (ev, mF) := hload
    unfold loadSnapshotAfterPass1 at hload1
    cases hp2 : pass2 snap.id vm (snap.variableTable.getD []) 0 m1 with
    | error e => rw [hp2] at hload1; exact Except.noConfusion hload1
    | ok m2 =>
        rw [hp2] at hload1
        have hload2 : loadSnapshotFrames dir snap.id vm (snap.stackFrames.getD [])
            m2 = Except.ok (ev, mF) := hload1
        unfold loadSnapshotFrames at hload2
        cases hpf : processFrames snap.id dir vm (snap.stackFrames.getD []) 0 m2 with
        | error e => rw [hpf] at hload2; exact Except.noConfusion hload2
        | ok q =>
            rcases q with ⟨cfs, m3⟩
            rw [hpf] at hload2
            have hload3 : Except.ok
                (({ reason := "other", hitBreakpoints := [snap.id],
                    callFrames := cfs } : PausedEventData), m3) =
                Except.ok (ev, mF) := hload2
            injection hload3 with hpair
            injection hpair with hev hmF
            obtain ⟨pl, ctx, line, hfs, hline, hcf, hmap⟩ :=
              processFrames_builds snap.id dir vm (snap.stackFrames.getD [])
                0 m2 cfs m3 hpf i f hframe
            rw [Nat.zero_add] at hcf hmap
            have hcond : (lv.name == some "context" && truthyN lv.varTableIndex) = true := by
              rw [hname, hidx]
              simp [truthyN, hk]
            have hpop : popContext vm ls = (ls.dropLast, mapGet vm k) := by
              rw [popContext_last vm ls lv hlast, if_pos hcond, hidx]
              rfl
            rw [frameScopeList_some vm f ls hlocals, hpop, frameScopeCont_eq] at hfs
            cases hpl : parseVariableList vm ls.dropLast with
            | error e =>
                rw [hpl] at hfs
                exact Except.noConfusion hfs
            | ok pl0 =>
                rw [hpl] at hfs
                have hfs' : Except.ok (pl0, mapGet vm k) = Except.ok (pl, ctx) := hfs
                injection hfs' with hfsp
                injection hfsp with hpl0 hctx
                have hctxd : ctx = some d := by rw [← hctx, hd]
                rw [← hev, ← hmF]
                exact ⟨_, pl, hcf, by simp [hctxd], by rw [← hpl0], hmap⟩

def barWrapperVariable : Variable :=
  Variable.mk none (some "#<Bar>") none none none none

def barDescriptor : RemoteObject :=
  { type := "object", className := some "Bar", description := some "Bar" }

def witnessLocalX : Variable :=
  Variable.mk (some "x") (some "1") none none none none

def witnessContextLocal : Variable :=
  Variable.mk (some "context") none (some 1) none none none

def witnessFrame : StackFrame :=
  { function := "fn", location := { path := "/a.js", line := 2 },
    locals := some [witnessLocalX, witnessContextLocal] }

def witnessSnapshot : CapturedSnapshot :=
  { id := "t", isFinalState := true, stackFrames := some [witnessFrame],
    variableTable := some [fooWrapperVariable, barWrapperVariable] }

def witnessVarMap : VarMap := [(0, fooDescriptor), (1, barDescriptor)]

def xDescriptor : PropertyDescriptor :=
  { name := "x",
    value := some { type := "number", description := some "1",
                    value := some (JsValue.num "1") },
    configurable := false, enumerable := true }

def witnessFinalStore : PDLMap :=
  [(ObjectId.object "t" 0,
    [{ name := "#<Foo>", value := some fooDescriptor,
       configurable := false, enumerable := true }]),
   (ObjectId.object "t" 1,
    [{ name := "#<Bar>", value := some barDescriptor,
       configurable := false, enumerable := true }]),
   (ObjectId.scope "t" 0, [xDescriptor])]

def witnessEvent : PausedEventData :=
  { reason := "other", hitBreakpoints := ["t"],
    callFrames := [{ callFrameId := "t-frame-0", functionName := "fn",
                     location := { scriptId := "/a.js", lineNumber := 1 },
                     scopeChain := [{ type := "local",
                                      object := { type := "object",
                                                  objectId := some (ObjectId.scope "t" 0) } }],
                     thisObject := barDescriptor }] }

theorem context_local_binds_this_witness :
    ∃ cf pl,
      witnessEvent.callFrames.get? 0 = some cf ∧
      cf.thisObject = barDescriptor ∧
      parseVariableList witnessVarMap
          ([witnessLocalX, witnessContextLocal] : List Variable).dropLast =
        Except.ok pl ∧
      mapGet witnessFinalStore (ObjectId.scope "t" 0) = some pl :=
  context_local_binds_this "src" [] witnessSnapshot witnessEvent
    witnessFinalStore 0 witnessFrame [witnessLocalX, witnessContextLocal]
    witnessContextLocal 1 witnessVarMap [] barDescriptor
    rfl rfl rfl rfl rfl rfl (by decide) rfl rfl

end CloudDebugAdapter
